import Mathlib

/-!
Shallow embedding of the core of the universal LUT generator
(`UniversalLUTGenerator`, src/unnamed/part_000).  JavaScript numbers are
modelled as real numbers; `Math.pow` becomes `Real.rpow` (the `^` with a
real exponent below); `Math.min` / `Math.max` become `min` / `max`; the
decoded `ImageData.data` RGBA byte buffer becomes a `List ℝ`.  JavaScript
booleans are modelled as propositions, branched on classically.
-/

open scoped Classical

noncomputable section

/-- An RGB triplet of JS numbers. -/
structure RGB where
  r : ℝ
  g : ℝ
  b : ℝ

/-- A LAB triplet as returned by `rgbToLab`. -/
structure Lab where
  L : ℝ
  a : ℝ
  b : ℝ

/-- The camera profile record (`universalCameraProfile`, part_000 lines 61-70):
shadow lift, midtone gamma, highlight gain and a 3x3 colour matrix. -/
structure CameraProfile where
  shadowsLift : RGB
  midtonesGamma : RGB
  highlightsGain : RGB
  colorMatrix : Fin 3 → Fin 3 → ℝ

/-- `universalCameraProfile` (part_000 lines 61-70). -/
def universalCameraProfile : CameraProfile where
  shadowsLift := ⟨0.015, 0.012, 0.008⟩
  midtonesGamma := ⟨0.5, 0.5, 0.5⟩
  highlightsGain := ⟨0.95, 0.95, 0.95⟩
  colorMatrix := ![![1.0, 0.0, 0.0], ![0.0, 1.0, 0.0], ![0.0, 0.0, 1.0]]

/-- The companding step used inside `rgbToLab` (part_000 lines 84-86). -/
def labF (t : ℝ) : ℝ :=
  if t > 0.008856 then t ^ ((1 : ℝ) / 3) else 7.787 * t + 16 / 116

/-- `rgbToLab` (part_000 lines 76-89). -/
def rgbToLab (r g b : ℝ) : Lab :=
  let x := labF ((r * 0.4124564 + g * 0.3575761 + b * 0.1804375) / 0.95047)
  let y := labF ((r * 0.2126729 + g * 0.7151522 + b * 0.072175) / 1.0)
  let z := labF ((r * 0.0193339 + g * 0.119192 + b * 0.9503041) / 1.08883)
  ⟨116 * y - 16, 500 * (x - y), 200 * (y - z)⟩

/-- `rgbToGrayscale` (part_000 lines 118-142): grayscale conversion with a
string-selected method, unknown methods falling back to luminance. -/
def rgbToGrayscale (r g b : ℝ) (method : String) : ℝ :=
  match method with
  | "luminance" => 0.299 * r + 0.587 * g + 0.114 * b
  | "average" => (r + g + b) / 3
  | "red" => r
  | "green" => g
  | "blue" => b
  | "max" => max r (max g b)
  | "min" => min r (min g b)
  | _ => 0.299 * r + 0.587 * g + 0.114 * b

/-- `Math.max` of the three channel differences tested by
`detectBlackAndWhite` (part_000 lines 102-108). -/
def maxDiff (r g b : ℝ) : ℝ :=
  max |r - g| (max |g - b| |r - b|)

/-- Whether the sample starting at byte offset `i` counts as colourful
(part_000 lines 98-111).  In JS an out-of-range read of a typed array
yields `undefined`; the subtractions then produce `NaN`, `Math.max`
propagates it and `NaN > 10` is false, so a sample whose three channels are
not all in range is never counted — hence the bound `i + 2 < data.length`. -/
def isColourfulAt (data : List ℝ) (i : ℕ) : Prop :=
  i + 2 < data.length ∧
    10 < maxDiff (data.getD i 0) (data.getD (i + 1) 0) (data.getD (i + 2) 0)

/-- The counting loop of `detectBlackAndWhite` (part_000 lines 98-111):
`for (let i = 0; i < data.length; i += 40)`. -/
def colourfulLoop (data : List ℝ) (i : ℕ) : ℕ :=
  if i < data.length then
    (if isColourfulAt data i then 1 else 0) + colourfulLoop data (i + 40)
  else 0
termination_by data.length - i
decreasing_by omega

/-- `detectBlackAndWhite` (part_000 lines 95-113): the image is monochrome
when fewer than 5% of the sampled pixels are colourful.  For the empty
buffer JS computes `0 / 0 = NaN` and `NaN < 0.05` is false, hence the
`0 < data.length` guard. -/
def detectBlackAndWhite (data : List ℝ) : Prop :=
  0 < data.length ∧
    (colourfulLoop data 0 : ℝ) / ((data.length : ℝ) / 40) < 0.05

/-- The per-zone sample accumulator of `analyzeImageAdvanced`
(part_000 lines 196-219): parallel lists of sampled values. -/
structure ZoneRaw where
  r : List ℝ
  g : List ℝ
  b : List ℝ
  luminance : List ℝ
  lab : List Lab

/-- The empty zone accumulator. -/
def ZoneRaw.empty : ZoneRaw := ⟨[], [], [], [], []⟩

/-- Prepend one sample to a zone accumulator (the `push` calls of
part_000 lines 229-247; consing the earlier sample onto the recursively
collected later samples preserves the source order). -/
def ZoneRaw.push (z : ZoneRaw) (r g b lum : ℝ) (lab : Lab) : ZoneRaw :=
  ⟨r :: z.r, g :: z.g, b :: z.b, lum :: z.luminance, lab :: z.lab⟩

/-- The byte offsets visited by a loop
`for (let i = 0; i < len; i += step)`: `0, step, 2*step, …`, i.e.
`⌈len / step⌉` offsets. -/
def strideOffsets (len step : ℕ) : List ℕ :=
  List.range' 0 ((len + step - 1) / step) step

/-- The body of one iteration of the sampling loop of
`analyzeImageAdvanced` (part_000 lines 222-248): normalise the sample at
byte offset `i` to `[0,1]`, classify it by luminance and push it onto the
matching zone of the accumulator. -/
def sampleStep (data : List ℝ) (i : ℕ) (acc : ZoneRaw × ZoneRaw × ZoneRaw) :
    ZoneRaw × ZoneRaw × ZoneRaw :=
  let r := data.getD i 0 / 255
  let g := data.getD (i + 1) 0 / 255
  let b := data.getD (i + 2) 0 / 255
  let luminance := rgbToGrayscale r g b "luminance"
  let lab := rgbToLab r g b
  if luminance < 0.25 then
    (acc.1.push r g b luminance lab, acc.2.1, acc.2.2)
  else if luminance < 0.75 then
    (acc.1, acc.2.1.push r g b luminance lab, acc.2.2)
  else
    (acc.1, acc.2.1, acc.2.2.push r g b luminance lab)

/-- The sampling loop of `analyzeImageAdvanced` (part_000 lines 221-248):
`for (let i = 0; i < data.length; i += 4 * sampleRate)` with
`sampleRate = 16`, so the visited offsets are `strideOffsets data.length 64`;
folding from the right preserves the source's push order. -/
def sampleZones (data : List ℝ) : ZoneRaw × ZoneRaw × ZoneRaw :=
  (strideOffsets data.length 64).foldr (sampleStep data)
    (ZoneRaw.empty, ZoneRaw.empty, ZoneRaw.empty)

/-- The per-zone statistics produced by `processZone` for a nonempty zone
(part_000 lines 256-288). -/
structure ZoneStats where
  count : ℕ
  rgb : RGB
  lumAvg : ℝ
  lab : Lab

/-- `processZone` (part_000 lines 256-288): `null` (here `none`) for an
empty zone, otherwise count and the mean RGB / luminance / LAB
(`reduce((a, b) => a + b, 0) / length`). -/
def processZone (zone : ZoneRaw) : Option ZoneStats :=
  if zone.r.length = 0 then none
  else
    some
      { count := zone.r.length
        rgb :=
          ⟨zone.r.sum / zone.r.length, zone.g.sum / zone.g.length,
            zone.b.sum / zone.b.length⟩
        lumAvg := zone.luminance.sum / zone.luminance.length
        lab :=
          ⟨(zone.lab.map Lab.L).sum / zone.lab.length,
            (zone.lab.map Lab.a).sum / zone.lab.length,
            (zone.lab.map Lab.b).sum / zone.lab.length⟩ }

/-- The per-image analysis record resolved by `analyzeImageAdvanced`
(part_000 lines 296-301). -/
structure ImageAnalysis where
  isBlackAndWhite : Prop
  shadows : Option ZoneStats
  midtones : Option ZoneStats
  highlights : Option ZoneStats

/-- The pure core of `analyzeImageAdvanced` (part_000 lines 152-316) on an
already decoded pixel buffer. -/
def analyzeImage (data : List ℝ) : ImageAnalysis :=
  let zones := sampleZones data
  { isBlackAndWhite := detectBlackAndWhite data
    shadows := processZone zones.1
    midtones := processZone zones.2.1
    highlights := processZone zones.2.2 }

/-- One aggregated zone of `combinedAnalysis` (part_000 lines 384-401):
running weighted sums, later normalised. -/
structure CombinedZone where
  rgb : RGB
  lumAvg : ℝ
  lab : Lab
  weight : ℝ

/-- The zero defaults a combined zone starts from (part_000 lines 384-401). -/
def CombinedZone.zero : CombinedZone := ⟨⟨0, 0, 0⟩, 0, ⟨0, 0, 0⟩, 0⟩

/-- `globalStats` (part_000 lines 402-407): hard-coded constants. -/
structure GlobalStats where
  contrast : ℝ
  saturation : ℝ
  colorTemperature : ℝ
  tint : ℝ

/-- The batch-level combined analysis (part_000 lines 382-408). -/
structure CombinedAnalysis where
  isBlackAndWhite : Prop
  shadows : CombinedZone
  midtones : CombinedZone
  highlights : CombinedZone
  globalStats : GlobalStats

/-- Accumulate one image's zone into the combined zone (part_000 lines
410-423): the zone is added only when present with a positive count,
weighted by its pixel count. -/
def addZone (acc : CombinedZone) (z : Option ZoneStats) : CombinedZone :=
  match z with
  | none => acc
  | some s =>
    if 0 < s.count then
      { rgb :=
          ⟨acc.rgb.r + s.rgb.r * s.count, acc.rgb.g + s.rgb.g * s.count,
            acc.rgb.b + s.rgb.b * s.count⟩
        lumAvg := acc.lumAvg + s.lumAvg * s.count
        lab :=
          ⟨acc.lab.L + s.lab.L * s.count, acc.lab.a + s.lab.a * s.count,
            acc.lab.b + s.lab.b * s.count⟩
        weight := acc.weight + s.count }
    else acc

/-- One step of the `analyses.forEach` accumulation (part_000 lines
409-424), updating the three zones at once. -/
def addAnalysis (acc : CombinedZone × CombinedZone × CombinedZone)
    (a : ImageAnalysis) : CombinedZone × CombinedZone × CombinedZone :=
  (addZone acc.1 a.shadows, addZone acc.2.1 a.midtones,
    addZone acc.2.2 a.highlights)

/-- Normalisation of one combined zone (part_000 lines 425-435): divide by
the total weight only when it is positive, otherwise keep the zero
defaults untouched. -/
def normalizeZone (z : CombinedZone) : CombinedZone :=
  if 0 < z.weight then
    { rgb := ⟨z.rgb.r / z.weight, z.rgb.g / z.weight, z.rgb.b / z.weight⟩
      lumAvg := z.lumAvg / z.weight
      lab := ⟨z.lab.L / z.weight, z.lab.a / z.weight, z.lab.b / z.weight⟩
      weight := z.weight }
  else z

/-- `analyses.some((a) => a.isBlackAndWhite)` (part_000 line 377):
short-circuiting OR over the list. -/
def hasBlackAndWhite (analyses : List ImageAnalysis) : Prop :=
  analyses.foldr (fun a acc => a.isBlackAndWhite ∨ acc) False

/-- Building `combinedAnalysis` (part_000 lines 377-435): the OR of the
per-image monochrome flags, the weighted zone aggregation and the
hard-coded `globalStats` constants. -/
def combineAnalyses (analyses : List ImageAnalysis) : CombinedAnalysis :=
  let acc := analyses.foldl addAnalysis
    (CombinedZone.zero, CombinedZone.zero, CombinedZone.zero)
  { isBlackAndWhite := hasBlackAndWhite analyses
    shadows := normalizeZone acc.1
    midtones := normalizeZone acc.2.1
    highlights := normalizeZone acc.2.2
    globalStats := ⟨0.5, 0.5, 0, 0⟩ }

/-- The generation configuration consumed by `generateAdvancedLUT`
(component state `intensityLevel`, `lutResolution`, `bwConversionMethod`). -/
structure Config where
  intensityLevel : ℝ
  lutResolution : ℕ
  bwConversionMethod : String

/-- `calculateTransform` (part_000 lines 440-469): per-channel gain
`min(3.0, max(0.1, (target / neutral - 1) * finalIntensity + 1))` with
`finalIntensity = baseIntensity = 0.5 + (intensityLevel - 1) * 0.25`. -/
def calculateTransform (intensityLevel : ℝ) (neutralBase targetRgb : RGB) :
    RGB :=
  let baseIntensity := 0.5 + (intensityLevel - 1) * 0.25
  let finalIntensity := baseIntensity
  ⟨min 3.0 (max 0.1 ((targetRgb.r / neutralBase.r - 1) * finalIntensity + 1)),
    min 3.0 (max 0.1 ((targetRgb.g / neutralBase.g - 1) * finalIntensity + 1)),
    min 3.0 (max 0.1 ((targetRgb.b / neutralBase.b - 1) * finalIntensity + 1))⟩

/-- The three per-zone transforms (part_000 lines 470-483). -/
structure ZoneTransforms where
  shadows : RGB
  midtones : RGB
  highlights : RGB

/-- The `transforms` record built in `generateAdvancedLUT`
(part_000 lines 470-483). -/
def transformsFor (cfg : Config) (ca : CombinedAnalysis) : ZoneTransforms :=
  ⟨calculateTransform cfg.intensityLevel universalCameraProfile.shadowsLift
      ca.shadows.rgb,
    calculateTransform cfg.intensityLevel universalCameraProfile.midtonesGamma
      ca.midtones.rgb,
    calculateTransform cfg.intensityLevel universalCameraProfile.highlightsGain
      ca.highlights.rgb⟩

/-- `contrastBoost` (part_000 lines 484-485). -/
def contrastBoost (ca : CombinedAnalysis) (cfg : Config) : ℝ :=
  1 + (ca.globalStats.contrast - 0.3) * (cfg.intensityLevel * 0.3)

/-- `saturationBoost` (part_000 lines 486-487). -/
def saturationBoost (ca : CombinedAnalysis) (cfg : Config) : ℝ :=
  1 + (ca.globalStats.saturation - 0.4) * (cfg.intensityLevel * 0.4)

/-- `temperatureShift` (part_000 lines 488-489). -/
def temperatureShift (ca : CombinedAnalysis) (cfg : Config) : ℝ :=
  ca.globalStats.colorTemperature * (cfg.intensityLevel * 0.002)

/-- `tintShift` (part_000 lines 490-491). -/
def tintShift (ca : CombinedAnalysis) (cfg : Config) : ℝ :=
  ca.globalStats.tint * (cfg.intensityLevel * 0.002)

/-- `applySCurve` (part_000 lines 628-632). -/
def applySCurve (value strength : ℝ) : ℝ :=
  if value < 0.5 then (value * 2) ^ strength / 2
  else 1 - ((1 - value) * 2) ^ strength / 2

/-- The global temperature/tint adjustment step of the colour branch
(part_000 lines 615-618): `R += temperatureShift`, `B -= temperatureShift`,
`G += tintShift`. -/
def globalShiftStep (tempShift tntShift : ℝ) (o : RGB) : RGB :=
  ⟨o.r + tempShift, o.g + tntShift, o.b - tempShift⟩

/-- Shadow ramp weight of the monochrome branch (part_000 line 518). -/
def bwShadowWeight (gray : ℝ) : ℝ :=
  max 0 (min 1 ((0.3 - gray) / 0.3))

/-- Highlight ramp weight of the monochrome branch (part_000 lines 519-522). -/
def bwHighlightWeight (gray : ℝ) : ℝ :=
  max 0 (min 1 ((gray - 0.7) / 0.3))

/-- Midtone ramp weight of the monochrome branch (part_000 lines 523-526). -/
def bwMidtoneWeight (gray : ℝ) : ℝ :=
  max 0 (1 - bwShadowWeight gray - bwHighlightWeight gray)

/-- One guarded blending step of the monochrome branch (part_000 lines
528-548).  The source condition is
`weight > 0 && combinedAnalysis.<zone>.luminance`; on the combined analysis
the `luminance` field is always the (truthy) record `{avg}` — even for a
zone of weight 0 — so only `weight > 0` remains. -/
def bwStep (weight expo targetLum intensityFactor value : ℝ) : ℝ :=
  if 0 < weight then
    let factor := weight ^ expo
    value * (1 - factor * intensityFactor) + targetLum * factor * intensityFactor
  else value

/-- The monochrome branch of the lattice loop (part_000 lines 509-550):
grayscale via the configured method, sequential shadow / midtone /
highlight blending toward the aggregated zone luminances, then a clamp. -/
def bwCellVal (ca : CombinedAnalysis) (cfg : Config) (iR iG iB : ℝ) : ℝ :=
  let grayscale := rgbToGrayscale iR iG iB cfg.bwConversionMethod
  let shadowWeight := bwShadowWeight grayscale
  let highlightWeight := bwHighlightWeight grayscale
  let midtoneWeight := max 0 (1 - shadowWeight - highlightWeight)
  let intensityFactor := cfg.intensityLevel * 0.2
  let m1 := bwStep shadowWeight 0.8 ca.shadows.lumAvg intensityFactor grayscale
  let m2 := bwStep midtoneWeight 0.6 ca.midtones.lumAvg intensityFactor m1
  let m3 := bwStep highlightWeight 0.8 ca.highlights.lumAvg intensityFactor m2
  max 0 (min 1 m3)

/-- Shadow ramp weight of the colour branch (part_000 lines 553-556). -/
def colorShadowWeight (lum : ℝ) : ℝ :=
  max 0 (min 1 ((0.35 - lum) / 0.35))

/-- Highlight ramp weight of the colour branch (part_000 lines 557-560). -/
def colorHighlightWeight (lum : ℝ) : ℝ :=
  max 0 (min 1 ((lum - 0.65) / 0.35))

/-- The guarded shadow blending step of the colour branch (part_000 lines
563-577): blend the running triplet toward
`input * shadowGain * 0.8 + combinedShadowMean * 0.2` with factor
`shadowWeight ^ 0.7 * blendStrength`; inert when the ramp weight is not
positive. -/
def colorShadowStep (ca : CombinedAnalysis) (t : ZoneTransforms)
    (blendStrength shadowWeight iR iG iB : ℝ) (o : RGB) : RGB :=
  if 0 < shadowWeight then
    let factor := shadowWeight ^ (0.7 : ℝ) * blendStrength
    let shadowR := iR * t.shadows.r * 0.8 + ca.shadows.rgb.r * 0.2
    let shadowG := iG * t.shadows.g * 0.8 + ca.shadows.rgb.g * 0.2
    let shadowB := iB * t.shadows.b * 0.8 + ca.shadows.rgb.b * 0.2
    ⟨o.r * (1 - factor) + shadowR * factor,
      o.g * (1 - factor) + shadowG * factor,
      o.b * (1 - factor) + shadowB * factor⟩
  else o

/-- The guarded midtone blending step of the colour branch (part_000 lines
578-583): blend toward `input * midtoneGain` (no pull toward the combined
zone mean) with factor `midtoneWeight ^ 0.5 * blendStrength`; inert when
the ramp weight is not positive. -/
def colorMidtoneStep (t : ZoneTransforms)
    (blendStrength midtoneWeight iR iG iB : ℝ) (o : RGB) : RGB :=
  if 0 < midtoneWeight then
    let factor := midtoneWeight ^ (0.5 : ℝ) * blendStrength
    ⟨o.r * (1 - factor) + iR * t.midtones.r * factor,
      o.g * (1 - factor) + iG * t.midtones.g * factor,
      o.b * (1 - factor) + iB * t.midtones.b * factor⟩
  else o

/-- The guarded highlight blending step of the colour branch (part_000
lines 584-598): blend toward
`input * highlightGain * 0.9 + combinedHighlightMean * 0.1` with factor
`highlightWeight ^ 0.7 * blendStrength`; inert when the ramp weight is not
positive. -/
def colorHighlightStep (ca : CombinedAnalysis) (t : ZoneTransforms)
    (blendStrength highlightWeight iR iG iB : ℝ) (o : RGB) : RGB :=
  if 0 < highlightWeight then
    let factor := highlightWeight ^ (0.7 : ℝ) * blendStrength
    let highlightR := iR * t.highlights.r * 0.9 + ca.highlights.rgb.r * 0.1
    let highlightG := iG * t.highlights.g * 0.9 + ca.highlights.rgb.g * 0.1
    let highlightB := iB * t.highlights.b * 0.9 + ca.highlights.rgb.b * 0.1
    ⟨o.r * (1 - factor) + highlightR * factor,
      o.g * (1 - factor) + highlightG * factor,
      o.b * (1 - factor) + highlightB * factor⟩
  else o

/-- The colour branch of the lattice loop (part_000 lines 551-638):
sequential zone blending (shadow, then midtone, then highlight, each
updating the running triplet), colour matrix, global shifts, saturation
boost and the conditional S-curve. -/
def colorCell (ca : CombinedAnalysis) (cfg : Config) (t : ZoneTransforms)
    (iR iG iB lum : ℝ) : RGB :=
  let shadowWeight := colorShadowWeight lum
  let highlightWeight := colorHighlightWeight lum
  let midtoneWeight := max 0 (1 - shadowWeight - highlightWeight)
  let blendStrength := cfg.intensityLevel * 0.15
  let o1 := colorShadowStep ca t blendStrength shadowWeight iR iG iB ⟨iR, iG, iB⟩
  let o2 := colorMidtoneStep t blendStrength midtoneWeight iR iG iB o1
  let o3 := colorHighlightStep ca t blendStrength highlightWeight iR iG iB o2
  let m : RGB :=
    ⟨o3.r * universalCameraProfile.colorMatrix 0 0 +
        o3.g * universalCameraProfile.colorMatrix 0 1 +
        o3.b * universalCameraProfile.colorMatrix 0 2,
      o3.r * universalCameraProfile.colorMatrix 1 0 +
        o3.g * universalCameraProfile.colorMatrix 1 1 +
        o3.b * universalCameraProfile.colorMatrix 1 2,
      o3.r * universalCameraProfile.colorMatrix 2 0 +
        o3.g * universalCameraProfile.colorMatrix 2 1 +
        o3.b * universalCameraProfile.colorMatrix 2 2⟩
  let sh := globalShiftStep (temperatureShift ca cfg) (tintShift ca cfg) m
  let currentLum := rgbToGrayscale sh.r sh.g sh.b "luminance"
  let sat : RGB :=
    ⟨currentLum + (sh.r - currentLum) * saturationBoost ca cfg,
      currentLum + (sh.g - currentLum) * saturationBoost ca cfg,
      currentLum + (sh.b - currentLum) * saturationBoost ca cfg⟩
  if contrastBoost ca cfg ≠ 1 then
    ⟨applySCurve sat.r (contrastBoost ca cfg),
      applySCurve sat.g (contrastBoost ca cfg),
      applySCurve sat.b (contrastBoost ca cfg)⟩
  else sat

/-- One lattice cell at an already normalised input (part_000 lines
497-645): the branch on the batch monochrome flag followed by the final
clamp of every channel to `[0,1]`. -/
def cellAtInput (ca : CombinedAnalysis) (cfg : Config) (t : ZoneTransforms)
    (iR iG iB : ℝ) : RGB :=
  let lum := rgbToGrayscale iR iG iB "luminance"
  let out : RGB :=
    if ca.isBlackAndWhite then
      let v := bwCellVal ca cfg iR iG iB
      ⟨v, v, v⟩
    else colorCell ca cfg t iR iG iB lum
  ⟨max 0 (min 1 out.r), max 0 (min 1 out.g), max 0 (min 1 out.b)⟩

/-- One lattice cell at integer lattice coordinates (part_000 lines
496-499): inputs are normalised by `lutSize - 1`. -/
def advancedCell (ca : CombinedAnalysis) (cfg : Config) (t : ZoneTransforms)
    (r g b : ℕ) : RGB :=
  cellAtInput ca cfg t ((r : ℝ) / ((cfg.lutResolution : ℝ) - 1))
    ((g : ℝ) / ((cfg.lutResolution : ℝ) - 1))
    ((b : ℝ) / ((cfg.lutResolution : ℝ) - 1))

/-- The triple lattice loop of `generateAdvancedLUT` (part_000 lines
494-647): blue outermost, green middle, red innermost. -/
def lutData (ca : CombinedAnalysis) (cfg : Config) (t : ZoneTransforms) :
    List RGB :=
  (List.range cfg.lutResolution).flatMap fun b =>
    (List.range cfg.lutResolution).flatMap fun g =>
      (List.range cfg.lutResolution).map fun r => advancedCell ca cfg t r g b

/-- The generated artifact, minus the timestamped title text (the text
serialisation is a boundary concern; the table is the emitted triplet
sequence, part_000 lines 649-657). -/
structure CubeLUT where
  isBW : Prop
  intensityLevel : ℝ
  resolution : ℕ
  table : List RGB

/-- The batch orchestration of `generateAdvancedLUT` (part_000 lines
352-667).  Each element of `images` is the outcome of
`analyzeImageAdvanced`'s decode step: `none` models a rejected promise
(load error or 30s timeout), which the `try`/`catch` of lines 362-371
skips; the run aborts (line 374-375) exactly when no image was analysed. -/
def generateAdvancedLUT (images : List (Option (List ℝ))) (cfg : Config) :
    Except String CubeLUT :=
  let analyses := images.filterMap fun img => img.map analyzeImage
  if analyses.length = 0 then
    Except.error "Failed to analyse any reference images"
  else
    let ca := combineAnalyses analyses
    let t := transformsFor cfg ca
    Except.ok
      { isBW := ca.isBlackAndWhite
        intensityLevel := cfg.intensityLevel
        resolution := cfg.lutResolution
        table := lutData ca cfg t }

/-- Number of iterations of a stride-40 loop over a buffer of `len` bytes,
i.e. the number of sampled pixels. -/
def numSamples (len : ℕ) : ℕ := (len + 39) / 40

/-- Modelled from the spec (claim C5 wording): a sampled pixel is colourful
exactly when the maximum channel difference exceeds 10. -/
def specColourfulAt (data : List ℝ) (i : ℕ) : Prop :=
  10 < maxDiff (data.getD i 0) (data.getD (i + 1) 0) (data.getD (i + 2) 0)

/-- Modelled from the spec (claim C5 wording): count the colourful pixels
among the sampled ones, sample index `k` reading bytes `40 * k`. -/
def specColourfulFrom (data : List ℝ) (k : ℕ) : ℕ :=
  if 40 * k < data.length then
    (if specColourfulAt data (40 * k) then 1 else 0) +
      specColourfulFrom data (k + 1)
  else 0
termination_by data.length - 40 * k
decreasing_by omega

/-- Modelled from the spec (claim C5 wording): black & white exactly when
`colorfulCount / sampledCount < 0.05`, with `sampledCount` the number of
sampled pixels. -/
def specIsBlackAndWhite (data : List ℝ) : Prop :=
  (specColourfulFrom data 0 : ℝ) / (numSamples data.length : ℝ) < 0.05

/-- Modelled from the spec (claim C8 wording): the solved gain
`clamp(((target / neutral) - 1) * baseIntensity + 1, 0.1, 3.0)` with
`baseIntensity = 0.5 + (intensityLevel - 1) * 0.25`. -/
def specGain (intensityLevel neutral target : ℝ) : ℝ :=
  let baseIntensity := 0.5 + (intensityLevel - 1) * 0.25
  max 0.1 (min 3.0 ((target / neutral - 1) * baseIntensity + 1))

/-- A gain lies in the clamp interval `[0.1, 3.0]`. -/
def gainInRange (x : ℝ) : Prop := 0.1 ≤ x ∧ x ≤ 3.0

/-- A decoded 1x1 flat black reference image: RGBA bytes `(0, 0, 0, 255)`. -/
def blackBuf : List ℝ := [0, 0, 0, 255]

/-- A decoded 1x1 flat mid-gray reference image: RGBA bytes
`(127.5, 127.5, 127.5, 255)`, whose normalised channels are exactly
`R = G = B = 0.5`. -/
def grayBuf : List ℝ := [127.5, 127.5, 127.5, 255]

/-- A decoded 1x1 flat red reference image: RGBA bytes `(255, 0, 0, 255)`.
Its one sampled pixel is colourful, so the image is not monochrome, and it
lands in the midtone zone, leaving shadows and highlights empty. -/
def redBuf : List ℝ := [255, 0, 0, 255]

end

/-! General helper lemmas. -/

lemma length_flatMap_uniform {α : Type} (f : ℕ → List α) (n k : ℕ)
    (hk : ∀ i, (f i).length = k) : ((List.range n).flatMap f).length = n * k := by
  induction n with
  | zero => simp
  | succ n ih =>
    rw [List.range_succ, List.flatMap_append, List.length_append, ih]
    simp [hk, Nat.succ_mul]

lemma flatMap_range_getElem {α : Type} (f : ℕ → List α) (k : ℕ)
    (hk : ∀ i, (f i).length = k) :
    ∀ n q j, q < n → j < k → ((List.range n).flatMap f)[k * q + j]? = (f q)[j]? := by
  intro n
  induction n with
  | zero => intro q j hq hj; omega
  | succ n ih =>
    intro q j hq hj
    rw [List.range_succ, List.flatMap_append]
    have hlen : ((List.range n).flatMap f).length = n * k :=
      length_flatMap_uniform f n k hk
    rcases Nat.lt_or_ge q n with h | h
    · have hidx : k * q + j < n * k :=
        calc k * q + j < k * q + k := by omega
        _ = k * (q + 1) := by ring
        _ ≤ k * n := Nat.mul_le_mul_left k (by omega)
        _ = n * k := Nat.mul_comm k n
      rw [List.getElem?_append, hlen, if_pos hidx]
      exact ih q j h hj
    · have hq2 : q = n := by omega
      subst hq2
      rw [List.getElem?_append_right (by rw [hlen, Nat.mul_comm]; omega), hlen]
      have hsub : k * q + j - q * k = j := by rw [Nat.mul_comm q k]; omega
      rw [hsub]
      simp

lemma clamp01_bounds (x : ℝ) : 0 ≤ max 0 (min 1 x) ∧ max 0 (min 1 x) ≤ 1 :=
  ⟨le_max_left 0 _, max_le zero_le_one (min_le_left 1 x)⟩

lemma min_max_clamp (x : ℝ) : min 3.0 (max 0.1 x) = max 0.1 (min 3.0 x) := by
  rcases le_total x (0.1 : ℝ) with h | h <;> rcases le_total x (3.0 : ℝ) with h2 | h2 <;>
    simp [min_def, max_def] <;> split_ifs <;> norm_num <;> linarith

lemma clamp_gain_range (x : ℝ) : gainInRange (min 3.0 (max 0.1 x)) :=
  ⟨le_min (by norm_num) (le_max_left _ _), min_le_left _ _⟩

/-! Facts about the lattice loop. -/

lemma lutData_length (ca : CombinedAnalysis) (cfg : Config) (t : ZoneTransforms) :
    (lutData ca cfg t).length = cfg.lutResolution ^ 3 := by
  have hinner : ∀ b, ((List.range cfg.lutResolution).flatMap fun g =>
      (List.range cfg.lutResolution).map fun r => advancedCell ca cfg t r g b).length =
        cfg.lutResolution * cfg.lutResolution :=
    fun b => length_flatMap_uniform _ _ _ (fun g => by simp)
  calc (lutData ca cfg t).length
      = cfg.lutResolution * (cfg.lutResolution * cfg.lutResolution) :=
        length_flatMap_uniform _ _ _ hinner
    _ = cfg.lutResolution ^ 3 := by ring

lemma lutData_getElem (ca : CombinedAnalysis) (cfg : Config) (t : ZoneTransforms)
    {r g b : ℕ} (hr : r < cfg.lutResolution) (hg : g < cfg.lutResolution)
    (hb : b < cfg.lutResolution) :
    (lutData ca cfg t)[b * cfg.lutResolution ^ 2 + g * cfg.lutResolution + r]? =
      some (advancedCell ca cfg t r g b) := by
  set n := cfg.lutResolution with hn
  have hidx : b * n ^ 2 + g * n + r = n * n * b + (n * g + r) := by ring
  have hrem : n * g + r < n * n :=
    calc n * g + r < n * g + n := by omega
    _ = n * (g + 1) := by ring
    _ ≤ n * n := Nat.mul_le_mul_left n (by omega)
  rw [hidx]
  show ((List.range n).flatMap fun b => (List.range n).flatMap fun g =>
    (List.range n).map fun r => advancedCell ca cfg t r g b)[n * n * b + (n * g + r)]? = _
  rw [flatMap_range_getElem _ (n * n)
    (fun i => length_flatMap_uniform _ _ _ (fun g => by simp)) n b (n * g + r) hb hrem]
  rw [flatMap_range_getElem _ n (fun i => by simp) n g r hg hr]
  rw [List.getElem?_map, List.getElem?_range hr]
  rfl

/-! Claim theorems. -/

/-- C1: for every resolution at least 2, the lattice loop emits exactly
`resolution ^ 3` triplets, and the triplet at flat index
`b * resolution ^ 2 + g * resolution + r` is the cell computed at the
normalised input `(r, g, b) / (resolution - 1)` — blue outermost, green
middle, red innermost (red varies fastest). -/
theorem c1_lattice_structure (ca : CombinedAnalysis) (cfg : Config)
    (t : ZoneTransforms) (_hres : 2 ≤ cfg.lutResolution) :
    (lutData ca cfg t).length = cfg.lutResolution ^ 3 ∧
      ∀ r g b : ℕ, r < cfg.lutResolution → g < cfg.lutResolution →
        b < cfg.lutResolution →
        (lutData ca cfg t)[b * cfg.lutResolution ^ 2 + g * cfg.lutResolution + r]? =
          some (cellAtInput ca cfg t
            ((r : ℝ) / ((cfg.lutResolution : ℝ) - 1))
            ((g : ℝ) / ((cfg.lutResolution : ℝ) - 1))
            ((b : ℝ) / ((cfg.lutResolution : ℝ) - 1))) := by
  refine ⟨lutData_length ca cfg t, fun r g b hr hg hb => ?_⟩
  rw [lutData_getElem ca cfg t hr hg hb]
  rfl

theorem c1_lattice_structure_witness :
    2 ≤ (Config.mk 1 2 "luminance").lutResolution ∧
      (lutData (combineAnalyses []) (Config.mk 1 2 "luminance")
        (transformsFor (Config.mk 1 2 "luminance") (combineAnalyses []))).length =
          2 ^ 3 ∧
      (lutData (combineAnalyses []) (Config.mk 1 2 "luminance")
        (transformsFor (Config.mk 1 2 "luminance")
          (combineAnalyses [])))[1 * (Config.mk 1 2 "luminance").lutResolution ^ 2 +
            1 * (Config.mk 1 2 "luminance").lutResolution + 1]? =
        some (cellAtInput (combineAnalyses []) (Config.mk 1 2 "luminance")
          (transformsFor (Config.mk 1 2 "luminance") (combineAnalyses []))
          (((1 : ℕ) : ℝ) / (((Config.mk 1 2 "luminance").lutResolution : ℝ) - 1))
          (((1 : ℕ) : ℝ) / (((Config.mk 1 2 "luminance").lutResolution : ℝ) - 1))
          (((1 : ℕ) : ℝ) / (((Config.mk 1 2 "luminance").lutResolution : ℝ) - 1))) :=
  ⟨by decide,
    (c1_lattice_structure (combineAnalyses []) (Config.mk 1 2 "luminance")
      (transformsFor (Config.mk 1 2 "luminance") (combineAnalyses []))
      (by decide)).1,
    (c1_lattice_structure (combineAnalyses []) (Config.mk 1 2 "luminance")
      (transformsFor (Config.mk 1 2 "luminance") (combineAnalyses []))
      (by decide)).2 1 1 1 (by decide) (by decide) (by decide)⟩

/-- C4: LUT generation is a pure function of the decoded pixel buffers and
the configuration — identical inputs give the identical emitted output. -/
theorem c4_determinism (images : List (Option (List ℝ))) (cfg : Config)
    (images2 : List (Option (List ℝ))) (cfg2 : Config)
    (h1 : images = images2) (h2 : cfg = cfg2) :
    generateAdvancedLUT images cfg = generateAdvancedLUT images2 cfg2 := by
  subst h1
  subst h2
  rfl

theorem c4_determinism_witness :
    ([some ([0, 0, 0, 255] : List ℝ)] = [some ([0, 0, 0, 255] : List ℝ)]) ∧
      (Config.mk 3 17 "luminance") = (Config.mk 3 17 "luminance") ∧
      generateAdvancedLUT [some [0, 0, 0, 255]] (Config.mk 3 17 "luminance") =
        generateAdvancedLUT [some [0, 0, 0, 255]] (Config.mk 3 17 "luminance") :=
  ⟨rfl, rfl, c4_determinism _ _ _ _ rfl rfl⟩

/-- C7: every channel of every emitted lattice triplet lies in `[0, 1]`,
for any combined analysis, configuration (hence any intensity level) and
transforms, in both branches — the final clamp guarantees it. -/
theorem c7_output_in_unit_interval (ca : CombinedAnalysis) (cfg : Config)
    (t : ZoneTransforms) (p : RGB) (hp : p ∈ lutData ca cfg t) :
    0 ≤ p.r ∧ p.r ≤ 1 ∧ 0 ≤ p.g ∧ p.g ≤ 1 ∧ 0 ≤ p.b ∧ p.b ≤ 1 := by
  unfold lutData at hp
  simp only [List.mem_flatMap, List.mem_map, List.mem_range] at hp
  obtain ⟨b, hb, g, hg, r, hr, rfl⟩ := hp
  exact ⟨(clamp01_bounds _).1, (clamp01_bounds _).2, (clamp01_bounds _).1,
    (clamp01_bounds _).2, (clamp01_bounds _).1, (clamp01_bounds _).2⟩

theorem c7_output_in_unit_interval_witness :
    advancedCell (combineAnalyses []) (Config.mk 1 1 "luminance")
        (transformsFor (Config.mk 1 1 "luminance") (combineAnalyses [])) 0 0 0 ∈
      lutData (combineAnalyses []) (Config.mk 1 1 "luminance")
        (transformsFor (Config.mk 1 1 "luminance") (combineAnalyses [])) ∧
    0 ≤ (advancedCell (combineAnalyses []) (Config.mk 1 1 "luminance")
        (transformsFor (Config.mk 1 1 "luminance") (combineAnalyses [])) 0 0 0).r := by
  have hm : advancedCell (combineAnalyses []) (Config.mk 1 1 "luminance")
      (transformsFor (Config.mk 1 1 "luminance") (combineAnalyses [])) 0 0 0 ∈
      lutData (combineAnalyses []) (Config.mk 1 1 "luminance")
        (transformsFor (Config.mk 1 1 "luminance") (combineAnalyses [])) := by
    simp only [lutData, List.mem_flatMap, List.mem_map, List.mem_range]
    exact ⟨0, one_pos, 0, one_pos, 0, one_pos, rfl⟩
  exact ⟨hm, (c7_output_in_unit_interval _ _ _ _ hm).1⟩

/-- C8: the solved per-zone gains equal the spec formula
`clamp(((target / neutral) - 1) * baseIntensity + 1, 0.1, 3.0)` against the
camera-profile neutrals, and every gain lies in `[0.1, 3.0]` for every
intensity level and aggregated target. -/
theorem c8_transform_gains (cfg : Config) (ca : CombinedAnalysis) :
    transformsFor cfg ca =
      ⟨⟨specGain cfg.intensityLevel 0.015 ca.shadows.rgb.r,
          specGain cfg.intensityLevel 0.012 ca.shadows.rgb.g,
          specGain cfg.intensityLevel 0.008 ca.shadows.rgb.b⟩,
        ⟨specGain cfg.intensityLevel 0.5 ca.midtones.rgb.r,
          specGain cfg.intensityLevel 0.5 ca.midtones.rgb.g,
          specGain cfg.intensityLevel 0.5 ca.midtones.rgb.b⟩,
        ⟨specGain cfg.intensityLevel 0.95 ca.highlights.rgb.r,
          specGain cfg.intensityLevel 0.95 ca.highlights.rgb.g,
          specGain cfg.intensityLevel 0.95 ca.highlights.rgb.b⟩⟩ ∧
      (gainInRange (transformsFor cfg ca).shadows.r ∧
        gainInRange (transformsFor cfg ca).shadows.g ∧
        gainInRange (transformsFor cfg ca).shadows.b ∧
        gainInRange (transformsFor cfg ca).midtones.r ∧
        gainInRange (transformsFor cfg ca).midtones.g ∧
        gainInRange (transformsFor cfg ca).midtones.b ∧
        gainInRange (transformsFor cfg ca).highlights.r ∧
        gainInRange (transformsFor cfg ca).highlights.g ∧
        gainInRange (transformsFor cfg ca).highlights.b) := by
  constructor
  · simp only [transformsFor, calculateTransform, specGain, universalCameraProfile,
      min_max_clamp]
  · exact ⟨clamp_gain_range _, clamp_gain_range _, clamp_gain_range _,
      clamp_gain_range _, clamp_gain_range _, clamp_gain_range _,
      clamp_gain_range _, clamp_gain_range _, clamp_gain_range _⟩

/-- C9: a failed image (decode error or timeout, modelled as `none`) is
skipped and the batch continues; the run surfaces an error instead of a
LUT exactly when zero images were successfully analysed. -/
theorem c9_error_handling (images : List (Option (List ℝ))) (cfg : Config) :
    ((∃ e, generateAdvancedLUT images cfg = Except.error e) ↔
        ∀ img ∈ images, img = none) ∧
      ∀ xs ys, images = xs ++ none :: ys →
        generateAdvancedLUT images cfg = generateAdvancedLUT (xs ++ ys) cfg := by
  constructor
  · by_cases h : (images.filterMap fun img => img.map analyzeImage).length = 0
    · constructor
      · intro _
        intro img hm
        have hnil := List.length_eq_zero.mp h
        have := List.filterMap_eq_nil_iff.mp hnil img hm
        simpa [Option.map_eq_none'] using this
      · intro _
        exact ⟨_, by unfold generateAdvancedLUT; rw [if_pos h]⟩
    · constructor
      · rintro ⟨e, he⟩
        unfold generateAdvancedLUT at he
        rw [if_neg h] at he
        exact absurd he (by simp)
      · intro hall
        exfalso
        apply h
        rw [List.length_eq_zero, List.filterMap_eq_nil_iff]
        intro a ha
        rw [hall a ha]
        rfl
  · rintro xs ys rfl
    have hfm : ((xs ++ none :: ys).filterMap fun img => img.map analyzeImage) =
        ((xs ++ ys).filterMap fun img => img.map analyzeImage) := by
      simp [List.filterMap_append, List.filterMap_cons]
    unfold generateAdvancedLUT
    rw [hfm]

theorem c9_error_handling_witness :
    (∃ e, generateAdvancedLUT [none] (Config.mk 1 2 "luminance") =
        Except.error e) ∧
      generateAdvancedLUT [none, some [0, 0, 0, 255]] (Config.mk 1 2 "luminance") =
        generateAdvancedLUT [some [0, 0, 0, 255]] (Config.mk 1 2 "luminance") :=
  ⟨(c9_error_handling [none] (Config.mk 1 2 "luminance")).1.mpr (by simp),
    (c9_error_handling [none, some [0, 0, 0, 255]]
      (Config.mk 1 2 "luminance")).2 [] [some [0, 0, 0, 255]] rfl⟩

/-- C10: the hard-coded global stats make the temperature and tint shifts
exactly 0 for every batch and every intensity level, so the global
temperature/tint adjustment step of the colour branch is the identity. -/
theorem c10_global_shift_identity (analyses : List ImageAnalysis)
    (cfg : Config) (o : RGB) :
    temperatureShift (combineAnalyses analyses) cfg = 0 ∧
      tintShift (combineAnalyses analyses) cfg = 0 ∧
      globalShiftStep (temperatureShift (combineAnalyses analyses) cfg)
        (tintShift (combineAnalyses analyses) cfg) o = o := by
  have h1 : (combineAnalyses analyses).globalStats.colorTemperature = 0 := rfl
  have h2 : (combineAnalyses analyses).globalStats.tint = 0 := rfl
  refine ⟨?_, ?_, ?_⟩
  · simp [temperatureShift, h1]
  · simp [tintShift, h2]
  · cases o with
    | mk r g b => simp [globalShiftStep, temperatureShift, tintShift, h1, h2]

/-! The OR semantics of the batch monochrome flag. -/

lemma hasBlackAndWhite_iff (l : List ImageAnalysis) :
    hasBlackAndWhite l ↔ ∃ a ∈ l, a.isBlackAndWhite := by
  induction l with
  | nil => simp [hasBlackAndWhite]
  | cons a l ih =>
    simp only [hasBlackAndWhite, List.foldr_cons] at ih ⊢
    rw [List.exists_mem_cons_iff]
    exact or_congr Iff.rfl ih

/-- C6: the batch monochrome flag is the OR of the per-image flags, and
whenever it holds the synthesizer takes the monochrome branch at every
lattice coordinate. -/
theorem c6_batch_bw_or (analyses : List ImageAnalysis) (cfg : Config)
    (t : ZoneTransforms) (r g b : ℕ) :
    ((combineAnalyses analyses).isBlackAndWhite ↔
        ∃ a ∈ analyses, a.isBlackAndWhite) ∧
      ((∃ a ∈ analyses, a.isBlackAndWhite) →
        advancedCell (combineAnalyses analyses) cfg t r g b =
          (let v := bwCellVal (combineAnalyses analyses) cfg
              ((r : ℝ) / ((cfg.lutResolution : ℝ) - 1))
              ((g : ℝ) / ((cfg.lutResolution : ℝ) - 1))
              ((b : ℝ) / ((cfg.lutResolution : ℝ) - 1));
            ⟨max 0 (min 1 v), max 0 (min 1 v), max 0 (min 1 v)⟩)) := by
  have hca : (combineAnalyses analyses).isBlackAndWhite ↔
      ∃ a ∈ analyses, a.isBlackAndWhite := hasBlackAndWhite_iff analyses
  refine ⟨hca, fun hbw => ?_⟩
  have h : (combineAnalyses analyses).isBlackAndWhite := hca.mpr hbw
  simp only [advancedCell, cellAtInput]
  rw [if_pos h]

theorem c6_batch_bw_or_witness :
    (∃ a ∈ [ImageAnalysis.mk True none none none], a.isBlackAndWhite) ∧
      advancedCell (combineAnalyses [ImageAnalysis.mk True none none none])
          (Config.mk 1 2 "luminance")
          (transformsFor (Config.mk 1 2 "luminance")
            (combineAnalyses [ImageAnalysis.mk True none none none])) 0 0 0 =
        (let v := bwCellVal (combineAnalyses [ImageAnalysis.mk True none none none])
            (Config.mk 1 2 "luminance")
            (((0 : ℕ) : ℝ) / (((Config.mk 1 2 "luminance").lutResolution : ℝ) - 1))
            (((0 : ℕ) : ℝ) / (((Config.mk 1 2 "luminance").lutResolution : ℝ) - 1))
            (((0 : ℕ) : ℝ) / (((Config.mk 1 2 "luminance").lutResolution : ℝ) - 1));
          ⟨max 0 (min 1 v), max 0 (min 1 v), max 0 (min 1 v)⟩) :=
  ⟨by simp,
    (c6_batch_bw_or [ImageAnalysis.mk True none none none]
      (Config.mk 1 2 "luminance")
      (transformsFor (Config.mk 1 2 "luminance")
        (combineAnalyses [ImageAnalysis.mk True none none none])) 0 0 0).2
      (by simp)⟩

/-! Claim C5: the monochrome detector against its spec description. -/

lemma colourful_count_eq (data : List ℝ) (h4 : 4 ∣ data.length) (k : ℕ) :
    specColourfulFrom data k = colourfulLoop data (40 * k) := by
  rw [specColourfulFrom, colourfulLoop]
  by_cases h : 40 * k < data.length
  · rw [if_pos h, if_pos h]
    obtain ⟨c, hc⟩ := id h4
    have hiff : specColourfulAt data (40 * k) ↔ isColourfulAt data (40 * k) := by
      unfold specColourfulAt isColourfulAt
      constructor
      · intro hP
        exact ⟨by omega, hP⟩
      · intro hP
        exact hP.2
    have hrec : specColourfulFrom data (k + 1) = colourfulLoop data (40 * (k + 1)) :=
      colourful_count_eq data h4 (k + 1)
    have h40 : 40 * (k + 1) = 40 * k + 40 := by ring
    rw [h40] at hrec
    rw [hrec]
    simp only [hiff]
  · rw [if_neg h, if_neg h]
termination_by data.length - 40 * k
decreasing_by omega

lemma threshold_iff (c len : ℕ) (hlen : 0 < len) :
    ((c : ℝ) / ((len : ℝ) / 40) < 0.05 ↔ (c : ℝ) / (numSamples len : ℝ) < 0.05) := by
  have hns : 0 < numSamples len := Nat.div_pos (by omega) (by norm_num)
  have hnsR : (0 : ℝ) < (numSamples len : ℝ) := by exact_mod_cast hns
  have h1 : (c : ℝ) / ((len : ℝ) / 40) < 0.05 ↔ 800 * c < len := by
    rw [div_lt_iff (by positivity),
      show (0.05 : ℝ) * ((len : ℝ) / 40) = (len : ℝ) / 800 by ring,
      lt_div_iff (by norm_num : (0 : ℝ) < 800)]
    have hcast : ((c : ℝ) * 800 < (len : ℝ)) ↔ (c * 800 < len) := by
      exact_mod_cast Iff.rfl
    rw [hcast]
    omega
  have h2 : (c : ℝ) / (numSamples len : ℝ) < 0.05 ↔ 20 * c < numSamples len := by
    rw [div_lt_iff hnsR,
      show (0.05 : ℝ) * (numSamples len : ℝ) = (numSamples len : ℝ) / 20 by ring,
      lt_div_iff (by norm_num : (0 : ℝ) < 20)]
    have hcast : ((c : ℝ) * 20 < (numSamples len : ℝ)) ↔ (c * 20 < numSamples len) := by
      exact_mod_cast Iff.rfl
    rw [hcast]
    omega
  have h3 : 800 * c < len ↔ 20 * c < numSamples len := by
    unfold numSamples
    constructor
    · intro h
      rw [Nat.lt_iff_add_one_le, Nat.le_div_iff_mul_le (by norm_num : 0 < 40)]
      omega
    · intro h
      rw [Nat.lt_iff_add_one_le, Nat.le_div_iff_mul_le (by norm_num : 0 < 40)] at h
      omega
  rw [h1, h2]
  exact h3

/-- C5: on every nonempty RGBA buffer (length a multiple of 4, not
necessarily of 40), the detector samples every 10th pixel (stride 40
bytes), counts a sample as colourful exactly when the maximum channel
difference exceeds 10, and classifies the image as black & white exactly
when `colorfulCount / sampledCount < 0.05` with `sampledCount` the number
of sampled pixels. -/
theorem c5_detector_matches_spec (data : List ℝ) (hlen : 0 < data.length)
    (h4 : 4 ∣ data.length) :
    (detectBlackAndWhite data ↔ specIsBlackAndWhite data) := by
  have h0 := colourful_count_eq data h4 0
  norm_num at h0
  unfold detectBlackAndWhite specIsBlackAndWhite
  rw [← h0]
  constructor
  · rintro ⟨_, hr⟩
    exact (threshold_iff _ _ hlen).mp hr
  · intro hr
    exact ⟨hlen, (threshold_iff _ _ hlen).mpr hr⟩

theorem c5_detector_matches_spec_witness :
    0 < ([10, 0, 0, 255, 0, 0, 0, 255] : List ℝ).length ∧
      4 ∣ ([10, 0, 0, 255, 0, 0, 0, 255] : List ℝ).length ∧
      (detectBlackAndWhite [10, 0, 0, 255, 0, 0, 0, 255] ↔
        specIsBlackAndWhite [10, 0, 0, 255, 0, 0, 0, 255]) :=
  ⟨by simp, by norm_num, c5_detector_matches_spec _ (by simp) (by norm_num)⟩

/-! Concrete evaluation helpers shared by the counterexample claims. -/

lemma rgbToGrayscale_lum (r g b : ℝ) :
    rgbToGrayscale r g b "luminance" = 0.299 * r + 0.587 * g + 0.114 * b := rfl

lemma bwShadowWeight_half : bwShadowWeight (1 / 2) = 0 := by
  unfold bwShadowWeight
  norm_num [max_def, min_def]

lemma bwHighlightWeight_half : bwHighlightWeight (1 / 2) = 0 := by
  unfold bwHighlightWeight
  norm_num [max_def, min_def]

lemma bwMidtoneWeight_half : bwMidtoneWeight (1 / 2) = 1 := by
  unfold bwMidtoneWeight
  rw [bwShadowWeight_half, bwHighlightWeight_half]
  norm_num

lemma bwShadowWeight_one : bwShadowWeight 1 = 0 := by
  unfold bwShadowWeight
  norm_num [max_def, min_def]

lemma bwHighlightWeight_one : bwHighlightWeight 1 = 1 := by
  unfold bwHighlightWeight
  norm_num [max_def, min_def]

/-! Claim C2: evaluation of the pipeline on the flat black and flat red
references, and the behaviour of a zero-weight zone in both branches. -/

lemma bwMidtoneWeight_one : bwMidtoneWeight 1 = 0 := by
  unfold bwMidtoneWeight
  rw [bwShadowWeight_one, bwHighlightWeight_one]
  norm_num

lemma colorHighlightWeight_one : colorHighlightWeight 1 = 1 := by
  unfold colorHighlightWeight
  norm_num [max_def, min_def]

lemma sampleZones_blackBuf : sampleZones blackBuf =
    (ZoneRaw.empty.push 0 0 0 0 (rgbToLab 0 0 0), ZoneRaw.empty, ZoneRaw.empty) := by
  unfold sampleZones
  have h1 : strideOffsets blackBuf.length 64 = [0] := by
    simp only [blackBuf]
    norm_num [strideOffsets, List.range']
  rw [h1]
  simp only [List.foldr_cons, List.foldr_nil]
  unfold sampleStep
  simp only [blackBuf, List.getD_cons_zero, List.getD_cons_succ, rgbToGrayscale_lum]
  norm_num

lemma analyzeImage_blackBuf_midtones : (analyzeImage blackBuf).midtones = none := by
  show processZone (sampleZones blackBuf).2.1 = none
  rw [sampleZones_blackBuf]
  rfl

lemma caBlack_midtones :
    (combineAnalyses [analyzeImage blackBuf]).midtones = CombinedZone.zero := by
  show normalizeZone (addZone CombinedZone.zero (analyzeImage blackBuf).midtones) =
    CombinedZone.zero
  rw [analyzeImage_blackBuf_midtones]
  show normalizeZone CombinedZone.zero = CombinedZone.zero
  unfold normalizeZone
  rw [if_neg]
  norm_num [CombinedZone.zero]

lemma notColourful_blackBuf : ¬ isColourfulAt blackBuf 0 := by
  unfold isColourfulAt maxDiff
  simp only [blackBuf]
  norm_num [List.getD_cons_zero, List.getD_cons_succ]

lemma detect_blackBuf : detectBlackAndWhite blackBuf := by
  have h40 : ¬ (0 + 40 < blackBuf.length) := by simp only [blackBuf]; norm_num
  have hc : colourfulLoop blackBuf 0 = 0 := by
    rw [colourfulLoop, if_pos (show 0 < blackBuf.length by simp only [blackBuf]; norm_num)]
    rw [colourfulLoop, if_neg h40]
    rw [if_neg notColourful_blackBuf]
  constructor
  · simp only [blackBuf]; norm_num
  · rw [hc]
    simp only [blackBuf]
    norm_num

lemma caBlack_isBW : (combineAnalyses [analyzeImage blackBuf]).isBlackAndWhite := by
  show detectBlackAndWhite blackBuf ∨ False
  exact Or.inl detect_blackBuf

lemma bwCellVal_black :
    bwCellVal (combineAnalyses [analyzeImage blackBuf]) (Config.mk 1 3 "luminance")
      (1 / 2) (1 / 2) (1 / 2) = 0.4 := by
  simp only [bwCellVal, rgbToGrayscale_lum]
  have hgray : (0.299 : ℝ) * (1 / 2) + 0.587 * (1 / 2) + 0.114 * (1 / 2) = 1 / 2 := by
    norm_num
  rw [hgray, bwShadowWeight_half, bwHighlightWeight_half, caBlack_midtones]
  simp only [bwStep, if_neg (lt_irrefl (0 : ℝ)),
    if_pos (show (0 : ℝ) < max 0 (1 - 0 - 0) by norm_num)]
  have hmax : (max 0 (1 - 0 - 0) : ℝ) = 1 := by norm_num
  rw [hmax, Real.one_rpow]
  norm_num [CombinedZone.zero, max_def, min_def]

lemma advancedCell_black (t : ZoneTransforms) :
    advancedCell (combineAnalyses [analyzeImage blackBuf]) (Config.mk 1 3 "luminance")
      t 1 1 1 = ⟨0.4, 0.4, 0.4⟩ := by
  have harg : ((1 : ℕ) : ℝ) /
      (((Config.mk 1 3 "luminance").lutResolution : ℝ) - 1) = 1 / 2 := by
    norm_num
  simp only [advancedCell, harg, cellAtInput]
  rw [if_pos caBlack_isBW, bwCellVal_black]
  have hclamp : (max 0 (min 1 (0.4 : ℝ)) : ℝ) = 0.4 := by
    norm_num [max_def, min_def]
  simp only [hclamp]

lemma sampleZones_redBuf_highlights : (sampleZones redBuf).2.2 = ZoneRaw.empty := by
  unfold sampleZones
  have h1 : strideOffsets redBuf.length 64 = [0] := by
    simp only [redBuf]
    norm_num [strideOffsets, List.range']
  rw [h1]
  simp only [List.foldr_cons, List.foldr_nil]
  unfold sampleStep
  simp only [redBuf, List.getD_cons_zero, List.getD_cons_succ, rgbToGrayscale_lum]
  norm_num

lemma analyzeImage_redBuf_highlights : (analyzeImage redBuf).highlights = none := by
  show processZone (sampleZones redBuf).2.2 = none
  rw [sampleZones_redBuf_highlights]
  rfl

lemma caRed_highlights :
    (combineAnalyses [analyzeImage redBuf]).highlights = CombinedZone.zero := by
  show normalizeZone (addZone CombinedZone.zero (analyzeImage redBuf).highlights) =
    CombinedZone.zero
  rw [analyzeImage_redBuf_highlights]
  show normalizeZone CombinedZone.zero = CombinedZone.zero
  unfold normalizeZone
  rw [if_neg]
  norm_num [CombinedZone.zero]

lemma colourful_redBuf : isColourfulAt redBuf 0 := by
  unfold isColourfulAt maxDiff
  constructor
  · simp only [redBuf]; norm_num
  · simp only [redBuf, List.getD_cons_zero, List.getD_cons_succ]
    rw [lt_max_iff]
    left
    rw [abs_of_nonneg (by norm_num : (0 : ℝ) ≤ 255 - 0)]
    norm_num

lemma colourfulLoop_redBuf : colourfulLoop redBuf 0 = 1 := by
  have h40 : ¬ (0 + 40 < redBuf.length) := by simp only [redBuf]; norm_num
  rw [colourfulLoop, if_pos (show 0 < redBuf.length by simp only [redBuf]; norm_num)]
  rw [colourfulLoop, if_neg h40]
  rw [if_pos colourful_redBuf]

lemma caRed_notBW : ¬ (combineAnalyses [analyzeImage redBuf]).isBlackAndWhite := by
  show ¬ (detectBlackAndWhite redBuf ∨ False)
  rintro (h | h)
  · have h2 := h.2
    rw [colourfulLoop_redBuf] at h2
    simp only [redBuf] at h2
    norm_num at h2
  · exact h

lemma tRed_highlights :
    (transformsFor (Config.mk 1 2 "luminance")
      (combineAnalyses [analyzeImage redBuf])).highlights = ⟨0.5, 0.5, 0.5⟩ := by
  show calculateTransform (Config.mk 1 2 "luminance").intensityLevel
    universalCameraProfile.highlightsGain
    (combineAnalyses [analyzeImage redBuf]).highlights.rgb = ⟨0.5, 0.5, 0.5⟩
  rw [caRed_highlights]
  simp only [calculateTransform, universalCameraProfile, CombinedZone.zero]
  norm_num [max_def, min_def]

lemma colorHighlightStep_red :
    colorHighlightStep (combineAnalyses [analyzeImage redBuf])
      (transformsFor (Config.mk 1 2 "luminance") (combineAnalyses [analyzeImage redBuf]))
      ((1 : ℝ) * 0.15) (colorHighlightWeight 1) 1 1 1 ⟨1, 1, 1⟩ =
      ⟨0.9175, 0.9175, 0.9175⟩ := by
  rw [colorHighlightWeight_one]
  simp only [colorHighlightStep, if_pos (show (0 : ℝ) < 1 by norm_num), Real.one_rpow,
    caRed_highlights, tRed_highlights]
  norm_num [CombinedZone.zero]

/-- C2 counterexample: a zero-weight zone does NOT leave the running value
unchanged, in either branch.  Monochrome branch: with a single flat black
reference the midtone zone has weight 0, yet at the lattice point with
normalised input `(1/2, 1/2, 1/2)` (resolution 3, intensity 1) the midtone
step turns the running value `0.5` into `0.4` — blending toward the zero
default luminance — so the emitted triplet is `(0.4, 0.4, 0.4)` rather
than the unchanged `(0.5, 0.5, 0.5)`.  Colour branch: with a single flat
red reference the batch is not monochrome and the highlight zone has
weight 0, yet at the lattice point with normalised input `(1, 1, 1)` and
luminance 1 the highlight step turns the running triplet `(1, 1, 1)` into
`(0.9175, 0.9175, 0.9175)`, blending in the gain solved from the zero
target. -/
theorem c2_zero_weight_zone_counterexample :
    ((combineAnalyses [analyzeImage blackBuf]).midtones.weight = 0 ∧
      bwStep (bwMidtoneWeight (1 / 2)) 0.6
        (combineAnalyses [analyzeImage blackBuf]).midtones.lumAvg 0.2 (1 / 2) ≠ 1 / 2 ∧
      (lutData (combineAnalyses [analyzeImage blackBuf]) (Config.mk 1 3 "luminance")
          (transformsFor (Config.mk 1 3 "luminance")
            (combineAnalyses [analyzeImage blackBuf])))[13]? =
        some ⟨0.4, 0.4, 0.4⟩) ∧
      (¬ (combineAnalyses [analyzeImage redBuf]).isBlackAndWhite ∧
        (combineAnalyses [analyzeImage redBuf]).highlights.weight = 0 ∧
        colorHighlightStep (combineAnalyses [analyzeImage redBuf])
          (transformsFor (Config.mk 1 2 "luminance")
            (combineAnalyses [analyzeImage redBuf]))
          ((1 : ℝ) * 0.15) (colorHighlightWeight 1) 1 1 1 ⟨1, 1, 1⟩ ≠ ⟨1, 1, 1⟩) := by
  refine ⟨⟨?_, ?_, ?_⟩, caRed_notBW, ?_, ?_⟩
  · rw [caBlack_midtones]
    rfl
  · rw [caBlack_midtones, bwMidtoneWeight_half]
    simp only [bwStep, if_pos (show (0 : ℝ) < 1 by norm_num), Real.one_rpow]
    norm_num [CombinedZone.zero]
  · have h := lutData_getElem (combineAnalyses [analyzeImage blackBuf])
      (Config.mk 1 3 "luminance")
      (transformsFor (Config.mk 1 3 "luminance") (combineAnalyses [analyzeImage blackBuf]))
      (r := 1) (g := 1) (b := 1) (by norm_num) (by norm_num) (by norm_num)
    norm_num at h
    rw [h, advancedCell_black]
  · rw [caRed_highlights]
    rfl
  · rw [colorHighlightStep_red]
    intro h
    rw [RGB.mk.injEq] at h
    norm_num at h

lemma foldl_midtones_none (l : List ImageAnalysis)
    (hmid : ∀ a ∈ l, a.midtones = none) :
    ∀ acc : CombinedZone × CombinedZone × CombinedZone,
      (l.foldl addAnalysis acc).2.1 = acc.2.1 := by
  induction l with
  | nil => intro acc; rfl
  | cons a l ih =>
    intro acc
    simp only [List.foldl_cons]
    rw [ih (fun x hx => hmid x (List.mem_cons_of_mem _ hx))]
    show addZone acc.2.1 a.midtones = acc.2.1
    rw [hmid a (List.mem_cons_self _ _)]
    rfl

lemma foldl_highlights_none (l : List ImageAnalysis)
    (hhigh : ∀ a ∈ l, a.highlights = none) :
    ∀ acc : CombinedZone × CombinedZone × CombinedZone,
      (l.foldl addAnalysis acc).2.2 = acc.2.2 := by
  induction l with
  | nil => intro acc; rfl
  | cons a l ih =>
    intro acc
    simp only [List.foldl_cons]
    rw [ih (fun x hx => hhigh x (List.mem_cons_of_mem _ hx))]
    show addZone acc.2.2 a.highlights = acc.2.2
    rw [hhigh a (List.mem_cons_self _ _)]
    rfl

/-- C2 amended: aggregation indeed never divides by a zero total weight —
a zone sampled nowhere keeps its zero defaults — but the zone's
contribution is NOT skipped during lattice synthesis, in either branch.
In the monochrome branch the zone's always-present `luminance` record
makes the code blend toward the default luminance 0: wherever the zone's
ramp weight `w` is positive the running value `v` becomes
`v * (1 - w ^ 0.6 * intensityFactor)` (shown here for the midtone zone),
and where the ramp weight is zero the value is left unchanged.  In the
colour branch the zone's transform is still solved from the zero RGB
target — per channel `clamp(1 - baseIntensity, 0.1, 3.0)` — and wherever
the zone's ramp weight is positive that gain is still blended into the
running triplet (the zone-mean term contributing 0), shown here for the
highlight zone. -/
theorem c2_zero_weight_zone_amended (analyses : List ImageAnalysis)
    (hmid : ∀ a ∈ analyses, a.midtones = none)
    (hhigh : ∀ a ∈ analyses, a.highlights = none)
    (cfg : Config) (gray lum v f iR iG iB : ℝ) (o : RGB) :
    ((combineAnalyses analyses).midtones = CombinedZone.zero ∧
      (combineAnalyses analyses).highlights = CombinedZone.zero) ∧
      (0 < bwMidtoneWeight gray →
        bwStep (bwMidtoneWeight gray) 0.6
          (combineAnalyses analyses).midtones.lumAvg f v =
          v * (1 - bwMidtoneWeight gray ^ (0.6 : ℝ) * f)) ∧
      (bwMidtoneWeight gray = 0 →
        bwStep (bwMidtoneWeight gray) 0.6
          (combineAnalyses analyses).midtones.lumAvg f v = v) ∧
      (transformsFor cfg (combineAnalyses analyses)).highlights =
        ⟨min 3.0 (max 0.1 (1 - (0.5 + (cfg.intensityLevel - 1) * 0.25))),
          min 3.0 (max 0.1 (1 - (0.5 + (cfg.intensityLevel - 1) * 0.25))),
          min 3.0 (max 0.1 (1 - (0.5 + (cfg.intensityLevel - 1) * 0.25)))⟩ ∧
      (0 < colorHighlightWeight lum →
        colorHighlightStep (combineAnalyses analyses)
          (transformsFor cfg (combineAnalyses analyses))
          (cfg.intensityLevel * 0.15) (colorHighlightWeight lum) iR iG iB o =
          ⟨o.r * (1 - colorHighlightWeight lum ^ (0.7 : ℝ) * (cfg.intensityLevel * 0.15)) +
              iR * (transformsFor cfg (combineAnalyses analyses)).highlights.r * 0.9 *
                (colorHighlightWeight lum ^ (0.7 : ℝ) * (cfg.intensityLevel * 0.15)),
            o.g * (1 - colorHighlightWeight lum ^ (0.7 : ℝ) * (cfg.intensityLevel * 0.15)) +
              iG * (transformsFor cfg (combineAnalyses analyses)).highlights.g * 0.9 *
                (colorHighlightWeight lum ^ (0.7 : ℝ) * (cfg.intensityLevel * 0.15)),
            o.b * (1 - colorHighlightWeight lum ^ (0.7 : ℝ) * (cfg.intensityLevel * 0.15)) +
              iB * (transformsFor cfg (combineAnalyses analyses)).highlights.b * 0.9 *
                (colorHighlightWeight lum ^ (0.7 : ℝ) * (cfg.intensityLevel * 0.15))⟩) := by
  have hz1 : (combineAnalyses analyses).midtones = CombinedZone.zero := by
    show normalizeZone ((analyses.foldl addAnalysis
      (CombinedZone.zero, CombinedZone.zero, CombinedZone.zero)).2.1) = CombinedZone.zero
    rw [foldl_midtones_none analyses hmid]
    show normalizeZone CombinedZone.zero = CombinedZone.zero
    unfold normalizeZone
    rw [if_neg]
    norm_num [CombinedZone.zero]
  have hz2 : (combineAnalyses analyses).highlights = CombinedZone.zero := by
    show normalizeZone ((analyses.foldl addAnalysis
      (CombinedZone.zero, CombinedZone.zero, CombinedZone.zero)).2.2) = CombinedZone.zero
    rw [foldl_highlights_none analyses hhigh]
    show normalizeZone CombinedZone.zero = CombinedZone.zero
    unfold normalizeZone
    rw [if_neg]
    norm_num [CombinedZone.zero]
  refine ⟨⟨hz1, hz2⟩, ?_, ?_, ?_, ?_⟩
  · intro hw
    rw [hz1]
    simp only [bwStep, if_pos hw, CombinedZone.zero]
    ring
  · intro hw0
    rw [hw0]
    simp only [bwStep, if_neg (lt_irrefl (0 : ℝ))]
  · show calculateTransform cfg.intensityLevel universalCameraProfile.highlightsGain
      (combineAnalyses analyses).highlights.rgb = _
    rw [hz2]
    simp only [calculateTransform, universalCameraProfile, CombinedZone.zero]
    have harg : ((0 : ℝ) / 0.95 - 1) * (0.5 + (cfg.intensityLevel - 1) * 0.25) + 1 =
        1 - (0.5 + (cfg.intensityLevel - 1) * 0.25) := by ring
    simp only [harg]
  · intro hw
    simp only [colorHighlightStep, if_pos hw, hz2, CombinedZone.zero]
    rw [RGB.mk.injEq]
    refine ⟨by ring, by ring, by ring⟩

theorem c2_zero_weight_zone_amended_witness :
    (∀ a ∈ [ImageAnalysis.mk True none none none], a.midtones = none) ∧
      (∀ a ∈ [ImageAnalysis.mk True none none none], a.highlights = none) ∧
      0 < bwMidtoneWeight (1 / 2) ∧
      bwMidtoneWeight 1 = 0 ∧
      0 < colorHighlightWeight 1 ∧
      (bwStep (bwMidtoneWeight (1 / 2)) 0.6
          (combineAnalyses [ImageAnalysis.mk True none none none]).midtones.lumAvg
          0.2 (1 / 2) =
        (1 / 2) * (1 - bwMidtoneWeight (1 / 2) ^ (0.6 : ℝ) * 0.2)) ∧
      (bwStep (bwMidtoneWeight 1) 0.6
          (combineAnalyses [ImageAnalysis.mk True none none none]).midtones.lumAvg
          0.2 (1 / 2) = 1 / 2) ∧
      (colorHighlightStep (combineAnalyses [ImageAnalysis.mk True none none none])
          (transformsFor (Config.mk 1 2 "luminance")
            (combineAnalyses [ImageAnalysis.mk True none none none]))
          ((1 : ℝ) * 0.15) (colorHighlightWeight 1) 1 1 1 ⟨1, 1, 1⟩ =
        ⟨1 * (1 - colorHighlightWeight 1 ^ (0.7 : ℝ) * ((1 : ℝ) * 0.15)) +
            1 * (transformsFor (Config.mk 1 2 "luminance")
              (combineAnalyses [ImageAnalysis.mk True none none none])).highlights.r * 0.9 *
              (colorHighlightWeight 1 ^ (0.7 : ℝ) * ((1 : ℝ) * 0.15)),
          1 * (1 - colorHighlightWeight 1 ^ (0.7 : ℝ) * ((1 : ℝ) * 0.15)) +
            1 * (transformsFor (Config.mk 1 2 "luminance")
              (combineAnalyses [ImageAnalysis.mk True none none none])).highlights.g * 0.9 *
              (colorHighlightWeight 1 ^ (0.7 : ℝ) * ((1 : ℝ) * 0.15)),
          1 * (1 - colorHighlightWeight 1 ^ (0.7 : ℝ) * ((1 : ℝ) * 0.15)) +
            1 * (transformsFor (Config.mk 1 2 "luminance")
              (combineAnalyses [ImageAnalysis.mk True none none none])).highlights.b * 0.9 *
              (colorHighlightWeight 1 ^ (0.7 : ℝ) * ((1 : ℝ) * 0.15))⟩) :=
  ⟨by simp, by simp,
    by rw [bwMidtoneWeight_half]; norm_num,
    bwMidtoneWeight_one,
    by rw [colorHighlightWeight_one]; norm_num,
    (c2_zero_weight_zone_amended [ImageAnalysis.mk True none none none] (by simp) (by simp)
      (Config.mk 1 2 "luminance") (1 / 2) 1 (1 / 2) 0.2 1 1 1 ⟨1, 1, 1⟩).2.1
      (by rw [bwMidtoneWeight_half]; norm_num),
    (c2_zero_weight_zone_amended [ImageAnalysis.mk True none none none] (by simp) (by simp)
      (Config.mk 1 2 "luminance") 1 1 (1 / 2) 0.2 1 1 1 ⟨1, 1, 1⟩).2.2.1
      bwMidtoneWeight_one,
    (c2_zero_weight_zone_amended [ImageAnalysis.mk True none none none] (by simp) (by simp)
      (Config.mk 1 2 "luminance") 1 1 (1 / 2) 0.2 1 1 1 ⟨1, 1, 1⟩).2.2.2.2
      (by rw [colorHighlightWeight_one]; norm_num)⟩

/-! Claim C3: evaluation of the pipeline on the flat mid-gray reference. -/

lemma sampleZones_grayBuf_highlights : (sampleZones grayBuf).2.2 = ZoneRaw.empty := by
  unfold sampleZones
  have h1 : strideOffsets grayBuf.length 64 = [0] := by
    simp only [grayBuf]
    norm_num [strideOffsets, List.range']
  rw [h1]
  simp only [List.foldr_cons, List.foldr_nil]
  unfold sampleStep
  simp only [grayBuf, List.getD_cons_zero, List.getD_cons_succ, rgbToGrayscale_lum]
  norm_num

lemma analyzeImage_grayBuf_highlights : (analyzeImage grayBuf).highlights = none := by
  show processZone (sampleZones grayBuf).2.2 = none
  rw [sampleZones_grayBuf_highlights]
  rfl

lemma caGray_highlights :
    (combineAnalyses [analyzeImage grayBuf]).highlights = CombinedZone.zero := by
  show normalizeZone (addZone CombinedZone.zero (analyzeImage grayBuf).highlights) =
    CombinedZone.zero
  rw [analyzeImage_grayBuf_highlights]
  show normalizeZone CombinedZone.zero = CombinedZone.zero
  unfold normalizeZone
  rw [if_neg]
  norm_num [CombinedZone.zero]

lemma notColourful_grayBuf : ¬ isColourfulAt grayBuf 0 := by
  unfold isColourfulAt maxDiff
  simp only [grayBuf]
  norm_num [List.getD_cons_zero, List.getD_cons_succ]

lemma detect_grayBuf : detectBlackAndWhite grayBuf := by
  have h40 : ¬ (0 + 40 < grayBuf.length) := by simp only [grayBuf]; norm_num
  have hc : colourfulLoop grayBuf 0 = 0 := by
    rw [colourfulLoop, if_pos (show 0 < grayBuf.length by simp only [grayBuf]; norm_num)]
    rw [colourfulLoop, if_neg h40]
    rw [if_neg notColourful_grayBuf]
  constructor
  · simp only [grayBuf]; norm_num
  · rw [hc]
    simp only [grayBuf]
    norm_num

lemma caGray_isBW : (combineAnalyses [analyzeImage grayBuf]).isBlackAndWhite := by
  show detectBlackAndWhite grayBuf ∨ False
  exact Or.inl detect_grayBuf

lemma bwCellVal_gray :
    bwCellVal (combineAnalyses [analyzeImage grayBuf]) (Config.mk 1 2 "luminance")
      1 1 1 = 0.8 := by
  simp only [bwCellVal, rgbToGrayscale_lum]
  have hgray : (0.299 : ℝ) * 1 + 0.587 * 1 + 0.114 * 1 = 1 := by norm_num
  rw [hgray, bwShadowWeight_one, bwHighlightWeight_one, caGray_highlights]
  have hmid : (max 0 (1 - 0 - 1) : ℝ) = 0 := by norm_num
  rw [hmid]
  simp only [bwStep, if_neg (lt_irrefl (0 : ℝ)),
    if_pos (show (0 : ℝ) < 1 by norm_num), Real.one_rpow]
  norm_num [CombinedZone.zero, max_def, min_def]

lemma abs_dev_point_eight : |(0.8 : ℝ) - 1| = 0.2 := by
  rw [abs_sub_comm, abs_of_nonneg (by norm_num : (0 : ℝ) ≤ 1 - 0.8)]
  norm_num

lemma advancedCell_gray (t : ZoneTransforms) :
    advancedCell (combineAnalyses [analyzeImage grayBuf]) (Config.mk 1 2 "luminance")
      t 1 1 1 = ⟨0.8, 0.8, 0.8⟩ := by
  have harg : ((1 : ℕ) : ℝ) /
      (((Config.mk 1 2 "luminance").lutResolution : ℝ) - 1) = 1 := by
    norm_num
  simp only [advancedCell, harg, cellAtInput]
  rw [if_pos caGray_isBW, bwCellVal_gray]
  have hclamp : (max 0 (min 1 (0.8 : ℝ)) : ℝ) = 0.8 := by
    norm_num [max_def, min_def]
  simp only [hclamp]

/-- C3 counterexample: a batch consisting of a single flat mid-gray
reference (every pixel exactly `R = G = B = 0.5`), `intensityLevel = 1`
and the default camera profile is classified monochrome (its pixels have
zero channel differences), and its LUT is far from the identity: the
triplet emitted for the white lattice corner is `(0.8, 0.8, 0.8)`, a
per-channel deviation of `0.2`, which is not below the tolerance `0.05`. -/
theorem c3_near_identity_counterexample :
    (combineAnalyses [analyzeImage grayBuf]).isBlackAndWhite ∧
      (lutData (combineAnalyses [analyzeImage grayBuf]) (Config.mk 1 2 "luminance")
          (transformsFor (Config.mk 1 2 "luminance")
            (combineAnalyses [analyzeImage grayBuf])))[7]? =
        some ⟨0.8, 0.8, 0.8⟩ ∧
      ¬ (|(0.8 : ℝ) - 1| < 0.05) := by
  refine ⟨caGray_isBW, ?_, by rw [abs_dev_point_eight]; norm_num⟩
  have h := lutData_getElem (combineAnalyses [analyzeImage grayBuf])
    (Config.mk 1 2 "luminance")
    (transformsFor (Config.mk 1 2 "luminance") (combineAnalyses [analyzeImage grayBuf]))
    (r := 1) (g := 1) (b := 1) (by norm_num) (by norm_num) (by norm_num)
  norm_num at h
  rw [h, advancedCell_gray]

/-- C3 amended: the flat mid-gray reference forces the monochrome branch
(the detector classifies any zero-chroma image as black & white), so the
resulting LUT is the monochrome tone mapping, not a near-identity: at the
white lattice corner the emitted value is `0.8`, a deviation of exactly
`0.2` from the input `1`. -/
theorem c3_near_identity_amended :
    (combineAnalyses [analyzeImage grayBuf]).isBlackAndWhite ∧
      advancedCell (combineAnalyses [analyzeImage grayBuf]) (Config.mk 1 2 "luminance")
        (transformsFor (Config.mk 1 2 "luminance")
          (combineAnalyses [analyzeImage grayBuf])) 1 1 1 = ⟨0.8, 0.8, 0.8⟩ ∧
      |(0.8 : ℝ) - 1| = 0.2 :=
  ⟨caGray_isBW, advancedCell_gray _, abs_dev_point_eight⟩
